import Mathlib

/-!
Verification of `calendar-helper/fetch-events.py`.

The script is embedded shallowly: the EventKit store is modelled as an
abstract read-only data source (a list of calendars plus an event-query
function), wall-clock time is a parameter read once per invocation, and
the whole `main` procedure becomes a pure function from the argument
vector, the store and the clock to a run result recording stdout (as
structured JSON values, one per `print`), stderr, the sequence of store
operations performed, and the process outcome.
-/

namespace FetchEvents

/-- A single quote character, used in the not-found error message. -/
def sq : String := String.singleton (Char.ofNat 39)

/-- The underscore character, allowed between digits by CPython `int`. -/
def uscore : Char := Char.ofNat 95

/-- Acceptor for the tail of a decimal digit string in which single
underscores may separate digits (CPython `int` literal grammar):
accepts `(digit | underscore digit)*`. -/
def udigitsAux : List Char → Bool
  | [] => true
  | c :: cs =>
    if c.isDigit then udigitsAux cs
    else if c = uscore then
      match cs with
      | d :: rest => d.isDigit && udigitsAux rest
      | [] => false
    else false

/-- Acceptor for a nonempty decimal digit string with optional single
underscores between digits: `digit (digit | underscore digit)*`. -/
def udigitsOk : List Char → Bool
  | [] => false
  | c :: cs => c.isDigit && udigitsAux cs

/-- Numeric value of a digit string, ignoring underscores. -/
def digitsVal (cs : List Char) : Nat :=
  List.foldl (fun a c => if c.isDigit then a * 10 + (c.toNat - 48) else a) 0 cs

/-- Strip leading and trailing whitespace characters. -/
def trimChars (cs : List Char) : List Char :=
  ((cs.dropWhile Char.isWhitespace).reverse.dropWhile Char.isWhitespace).reverse

/-- Models CPython `int(str)` on a decimal string: optional surrounding
whitespace, an optional single sign, then digits optionally separated by
single underscores.  Returns `none` where CPython raises `ValueError`. -/
def pyInt (s : String) : Option Int :=
  match trimChars s.data with
  | [] => none
  | c :: cs =>
    if c = '-' then
      if udigitsOk cs then some (-(digitsVal cs : Int)) else none
    else if c = '+' then
      if udigitsOk cs then some (digitsVal cs : Int) else none
    else
      if udigitsOk (c :: cs) then some (digitsVal (c :: cs) : Int) else none

/-- An EventKit source (account), as consumed by the script: only its
title is read. -/
structure EKSource where
  title : String
  deriving Repr, DecidableEq

/-- An EventKit calendar, as consumed by the script: its display title
and optional source.  `calendarIdentifier` is the store-issued unique
identifier, present in the store's data model but never read by the
script. -/
structure EKCalendar where
  calendarIdentifier : String
  title : String
  source : Option EKSource
  deriving Repr, DecidableEq

/-- An EventKit event, with exactly the attributes the script reads.
Optional text attributes are `none` when the store holds no value
(Python `None`).  Timestamps are seconds since the epoch. -/
structure EKEvent where
  eventIdentifier : String
  title : Option String
  startDate : Int
  endDate : Int
  isAllDay : Bool
  location : Option String
  notes : Option String
  url : Option String
  deriving Repr, DecidableEq

/-- The event store, treated as an opaque read-only collaborator:
its event-type calendars, and its answer to a start/end/calendars
event query. -/
structure EKEventStore where
  calendars : List EKCalendar
  eventsMatching : Int → Int → List EKCalendar → List EKEvent

/-- JSON values, as produced by `json.dumps` on the script's data. -/
inductive Json where
  | jstr (s : String)
  | jint (n : Int)
  | jbool (b : Bool)
  | jarr (xs : List Json)
  | jobj (fields : List (String × Json))
  deriving Repr

/-- The keys of a JSON object (empty for non-objects). -/
def objKeys : Json → List String
  | .jobj fs => fs.map Prod.fst
  | _ => []

/-- First value bound to a key in a JSON object. -/
def objGet (j : Json) (k : String) : Option Json :=
  match j with
  | .jobj fs => fs.lookup k
  | _ => none

/-- Value bound to a key of the embedded `calendar` object of a record. -/
def calField (j : Json) (k : String) : Option Json :=
  (objGet j "calendar").bind (fun c => objGet c k)

/-- A store operation, as observed by the host calendar subsystem. -/
inductive StoreOp where
  | requestAccess
  | listCalendars
  | queryEvents (winStart winEnd : Int) (cals : List EKCalendar)
  deriving Repr, DecidableEq

/-- Process outcome: a `sys.exit(code)` or an uncaught Python error
(which terminates the process with a traceback and a non-zero status). -/
inductive Outcome where
  | exited (code : Nat)
  | uncaught (msg : String)
  deriving Repr, DecidableEq

/-- Observable result of one invocation: each `print` to stdout as one
structured JSON value, stderr lines, the store operations performed, and
the outcome. -/
structure RunResult where
  stdout : List Json
  stderr : List String
  ops : List StoreOp
  outcome : Outcome

/-- `def access_callback(granted, error): pass` — the authorization
completion callback, a no-op. -/
def access_callback (_granted : Bool) (_error : Option String) : Unit := ()

/-- The `for cal in calendars: if cal.title() == calendar_name: ... break`
loop: first calendar whose title equals the requested name. -/
def findTargetCal (calendar_name : String) : List EKCalendar → Option EKCalendar
  | [] => none
  | cal :: rest =>
    if cal.title = calendar_name then some cal else findTargetCal calendar_name rest

/-- The usage line printed to stderr when fewer than 3 positional
arguments are supplied. -/
def usageMsg : String := "Usage: fetch-events.py <calendar_name> <days_back> <days_ahead>"

/-- The not-found error message `f"Calendar '{calendar_name}' not found"`. -/
def notFoundMsg (calendar_name : String) : String :=
  "Calendar " ++ sq ++ calendar_name ++ sq ++ " not found"

/-- One emitted event record, from the loop body `result.append({...})`. -/
def eventToJson (target_cal : EKCalendar) (event : EKEvent) : Json :=
  .jobj [
    ("id", .jstr event.eventIdentifier),
    ("title", .jstr (event.title.getD "")),
    ("startDate", .jint event.startDate),
    ("endDate", .jint event.endDate),
    ("isAllDay", .jbool event.isAllDay),
    ("location", .jstr (event.location.getD "")),
    ("notes", .jstr (event.notes.getD "")),
    ("url", .jstr (event.url.getD "")),
    ("calendar", .jobj [
      ("id", .jstr target_cal.title),
      ("title", .jstr target_cal.title),
      ("source", .jstr (match target_cal.source with
        | some s => s.title
        | none => "Unknown"))])]

/-- Seconds in a day: `timedelta(days=d)` adds `d * 86400` seconds. -/
def secondsPerDay : Int := 86400

/-- CPython bound on the days magnitude of a `timedelta`. -/
def timedeltaMaxDays : Int := 999999999

/-- `timedelta(days=d)`, in seconds: construction raises `OverflowError`
(modelled as `none`) when the magnitude bound is exceeded. -/
def timedeltaDays (d : Int) : Option Int :=
  if -timedeltaMaxDays ≤ d ∧ d ≤ timedeltaMaxDays then some (d * secondsPerDay)
  else none

/-- `datetime.min` (year 1, January 1) in naive seconds relative to the
epoch 1970-01-01: -719162 days. -/
def datetimeMinSec : Int := -62135596800

/-- `datetime.max` (9999-12-31 23:59:59) in naive seconds relative to the
epoch 1970-01-01. -/
def datetimeMaxSec : Int := 253402300799

/-- `datetime - timedelta`: raises `OverflowError` (modelled as `none`)
when the result leaves the supported year 1 to 9999 range. -/
def datetimeSub (t delta : Int) : Option Int :=
  if datetimeMinSec ≤ t - delta ∧ t - delta ≤ datetimeMaxSec then some (t - delta)
  else none

/-- `datetime + timedelta`: raises `OverflowError` (modelled as `none`)
when the result leaves the supported year 1 to 9999 range. -/
def datetimeAdd (t delta : Int) : Option Int :=
  if datetimeMinSec ≤ t + delta ∧ t + delta ≤ datetimeMaxSec then some (t + delta)
  else none

/-- The `main()` procedure.  `argv` is the full `sys.argv` (program name
first); `now` is the wall-clock time, in seconds, read once by
`datetime.now()`; `granted`/`accessErr` are the values the framework
delivers to the authorization completion callback. -/
def runMain (store : EKEventStore) (now : Int) (granted : Bool)
    (accessErr : Option String) (argv : List String) : RunResult :=
  match argv with
  | _prog :: calendar_name :: arg2 :: arg3 :: _rest =>
    match pyInt arg2 with
    | none => { stdout := [], stderr := [], ops := [], outcome := .uncaught "ValueError" }
    | some days_back =>
      match pyInt arg3 with
      | none => { stdout := [], stderr := [], ops := [], outcome := .uncaught "ValueError" }
      | some days_ahead =>
        let _ := access_callback granted accessErr
        match findTargetCal calendar_name store.calendars with
        | none =>
          { stdout := [.jobj [("error", .jstr (notFoundMsg calendar_name))]]
            stderr := []
            ops := [.requestAccess, .listCalendars]
            outcome := .exited 1 }
        | some target_cal =>
          match timedeltaDays days_back with
          | none =>
            { stdout := [], stderr := [], ops := [.requestAccess, .listCalendars]
              outcome := .uncaught "OverflowError" }
          | some delta_back =>
            match datetimeSub now delta_back with
            | none =>
              { stdout := [], stderr := [], ops := [.requestAccess, .listCalendars]
                outcome := .uncaught "OverflowError" }
            | some start_date =>
              match timedeltaDays days_ahead with
              | none =>
                { stdout := [], stderr := [], ops := [.requestAccess, .listCalendars]
                  outcome := .uncaught "OverflowError" }
              | some delta_ahead =>
                match datetimeAdd now delta_ahead with
                | none =>
                  { stdout := [], stderr := [], ops := [.requestAccess, .listCalendars]
                    outcome := .uncaught "OverflowError" }
                | some end_date =>
                  let events := store.eventsMatching start_date end_date [target_cal]
                  { stdout := [.jarr (events.map (eventToJson target_cal))]
                    stderr := []
                    ops := [.requestAccess, .listCalendars,
                            .queryEvents start_date end_date [target_cal]]
                    outcome := .exited 0 }
  | _ =>
    { stdout := [], stderr := [usageMsg], ops := [], outcome := .exited 1 }

/-- Sample source account, for concrete instantiations. -/
def workSource : EKSource := ⟨"iCloud"⟩

/-- Sample calendar titled Work, with a source. -/
def workCal : EKCalendar := ⟨"CAL-1", "Work", some workSource⟩

/-- Sample calendar titled Home, with no source. -/
def homeCal : EKCalendar := ⟨"CAL-2", "Home", none⟩

/-- A second calendar also titled Work, to exercise duplicate titles. -/
def dupCal : EKCalendar := ⟨"CAL-3", "Work", none⟩

/-- Sample event with a title and an all-day flag, optional fields absent. -/
def sampleEvent : EKEvent := ⟨"EV-1", some "Holiday", 100, 200, true, none, none, none⟩

/-- Sample event with every optional text field absent. -/
def blankEvent : EKEvent := ⟨"EV-2", none, 100, 200, false, none, none, none⟩

/-- Sample store: three calendars, and a query that always returns the two
sample events. -/
def sampleStore : EKEventStore :=
  ⟨[workCal, homeCal, dupCal], fun _ _ _ => [sampleEvent, blankEvent]⟩

/-- The nine keys of an emitted event record, in emission order. -/
def nineKeys : List String :=
  ["id", "title", "startDate", "endDate", "isAllDay", "location", "notes", "url", "calendar"]

theorem findTargetCal_eq_find (calendar_name : String) (cals : List EKCalendar) :
    findTargetCal calendar_name cals = cals.find? (fun c => c.title == calendar_name) := by
  induction cals with
  | nil => rfl
  | cons c cs ih =>
    simp only [findTargetCal, List.find?]
    by_cases h : c.title = calendar_name
    · rw [if_pos h, beq_iff_eq.mpr h]
    · rw [if_neg h, beq_eq_false_iff_ne.mpr h, ih]

theorem findTargetCal_none (calendar_name : String) (cals : List EKCalendar)
    (h : ∀ c ∈ cals, c.title ≠ calendar_name) :
    findTargetCal calendar_name cals = none := by
  induction cals with
  | nil => rfl
  | cons c cs ih =>
    simp only [findTargetCal, if_neg (h c (by simp))]
    exact ih (fun d hd => h d (by simp [hd]))

theorem findTargetCal_title (calendar_name : String) (cals : List EKCalendar)
    (cal : EKCalendar) (h : findTargetCal calendar_name cals = some cal) :
    cal.title = calendar_name := by
  induction cals with
  | nil => simp [findTargetCal] at h
  | cons c cs ih =>
    by_cases hc : c.title = calendar_name
    · simp only [findTargetCal, if_pos hc, Option.some.injEq] at h
      rw [← h]; exact hc
    · simp only [findTargetCal, if_neg hc] at h
      exact ih h

theorem findTargetCal_first (calendar_name : String) (pre : List EKCalendar)
    (cal : EKCalendar) (post : List EKCalendar) (hc : cal.title = calendar_name)
    (hpre : ∀ d ∈ pre, d.title ≠ calendar_name) :
    findTargetCal calendar_name (pre ++ cal :: post) = some cal := by
  induction pre with
  | nil => simp [findTargetCal, hc]
  | cons d ds ih =>
    simp only [List.cons_append, findTargetCal, if_neg (hpre d (by simp))]
    exact ih (fun x hx => hpre x (by simp [hx]))

theorem timedeltaDays_eq (d x : Int) (h : timedeltaDays d = some x) :
    x = d * secondsPerDay := by
  simp only [timedeltaDays] at h
  split at h
  · exact (Option.some.inj h).symm
  · simp at h

theorem datetimeSub_eq (t delta r : Int) (h : datetimeSub t delta = some r) :
    r = t - delta := by
  simp only [datetimeSub] at h
  split at h
  · exact (Option.some.inj h).symm
  · simp at h

theorem datetimeAdd_eq (t delta r : Int) (h : datetimeAdd t delta = some r) :
    r = t + delta := by
  simp only [datetimeAdd] at h
  split at h
  · exact (Option.some.inj h).symm
  · simp at h

/-- Claim C1: on an invocation with at least three positional arguments and
parseable integer arguments, when no calendar in the store has a title equal
to the requested name, stdout is exactly the single JSON object
with key error bound to the interpolated not-found message, and the
process exits with status 1. -/
theorem calendar_not_found_emits_single_error_object (store : EKEventStore)
    (now : Int) (g : Bool) (e : Option String) (prog name a2 a3 : String)
    (rest : List String) (h2 : (pyInt a2).isSome) (h3 : (pyInt a3).isSome)
    (hnone : ∀ c ∈ store.calendars, c.title ≠ name) :
    (runMain store now g e (prog :: name :: a2 :: a3 :: rest)).stdout
      = [.jobj [("error", .jstr (notFoundMsg name))]] ∧
    (runMain store now g e (prog :: name :: a2 :: a3 :: rest)).outcome = .exited 1 := by
  obtain ⟨db, hdb⟩ := Option.isSome_iff_exists.mp h2
  obtain ⟨da, hda⟩ := Option.isSome_iff_exists.mp h3
  simp [runMain, hdb, hda, findTargetCal_none _ _ hnone]

/-- Witness for C1: requesting the calendar Gym against the sample store,
whose calendars are titled Work, Home and Work. -/
theorem calendar_not_found_emits_single_error_object_witness :
    (pyInt "7").isSome ∧ (pyInt "14").isSome ∧
    (∀ c ∈ sampleStore.calendars, c.title ≠ "Gym") ∧
    ((runMain sampleStore 0 true none ["fetch-events.py", "Gym", "7", "14"]).stdout
      = [.jobj [("error", .jstr (notFoundMsg "Gym"))]] ∧
     (runMain sampleStore 0 true none ["fetch-events.py", "Gym", "7", "14"]).outcome
      = .exited 1) :=
  ⟨by decide, by decide, by decide,
   calendar_not_found_emits_single_error_object sampleStore 0 true none
     "fetch-events.py" "Gym" "7" "14" [] (by decide) (by decide) (by decide)⟩

/-- Claim C3: calendar lookup is the first-match linear scan: it agrees with
List.find? under exact case-sensitive title equality, any hit has exactly the
requested title, and with duplicate titles the first calendar in enumeration
order wins. -/
theorem calendar_lookup_is_first_exact_title_match :
    (∀ calendar_name cals, findTargetCal calendar_name cals
        = cals.find? (fun c => c.title == calendar_name)) ∧
    (∀ calendar_name cals cal, findTargetCal calendar_name cals = some cal →
        cal.title = calendar_name) ∧
    (∀ calendar_name pre cal post, cal.title = calendar_name →
        (∀ d ∈ pre, d.title ≠ calendar_name) →
        findTargetCal calendar_name (pre ++ cal :: post) = some cal) :=
  ⟨findTargetCal_eq_find, findTargetCal_title, findTargetCal_first⟩

/-- Witness for C3: among Home, Work (CAL-3) and Work (CAL-1), the scan for
Work returns the first Work calendar, CAL-3. -/
theorem calendar_lookup_is_first_exact_title_match_witness :
    dupCal.title = "Work" ∧ (∀ d ∈ [homeCal], d.title ≠ "Work") ∧
    findTargetCal "Work" ([homeCal] ++ dupCal :: [workCal]) = some dupCal :=
  ⟨by decide, by decide,
   calendar_lookup_is_first_exact_title_match.2.2 "Work" [homeCal] dupCal [workCal]
     (by decide) (by decide)⟩

/-- Counterexample for C4 as frozen: at clock 1760000000 with the parsed
integer days_back 800000, the date subtraction leaves the supported
datetime range, the run dies with an uncaught OverflowError and no event
query is ever issued — so the window is not computed for every invocation
with parsed integers. -/
theorem query_window_overflow_counterexample :
    pyInt "800000" = some 800000 ∧ pyInt "0" = some 0 ∧
    findTargetCal "Work" sampleStore.calendars = some workCal ∧
    (runMain sampleStore 1760000000 true none
       ["fetch-events.py", "Work", "800000", "0"]).outcome
      = .uncaught "OverflowError" ∧
    (runMain sampleStore 1760000000 true none
       ["fetch-events.py", "Work", "800000", "0"]).ops
      = [.requestAccess, .listCalendars] := by decide

/-- Claim C4 as amended: with parsed integers days_back and days_ahead for
which both timedelta values are constructible and both shifted datetimes
stay within the supported year 1 to 9999 range, the event query issued to
the store spans exactly from now minus days_back days to now plus
days_ahead days, where a day is 86400 seconds and now is the single
wall-clock reading of the invocation; outside those bounds an uncaught
OverflowError ends the run before any query. -/
theorem query_window_is_now_minus_back_plus_ahead (store : EKEventStore)
    (now : Int) (g : Bool) (e : Option String) (prog name a2 a3 : String)
    (rest : List String) (db da delta_back delta_ahead winS winE : Int)
    (cal : EKCalendar)
    (h2 : pyInt a2 = some db) (h3 : pyInt a3 = some da)
    (hfind : findTargetCal name store.calendars = some cal)
    (hb : timedeltaDays db = some delta_back)
    (hs : datetimeSub now delta_back = some winS)
    (ha : timedeltaDays da = some delta_ahead)
    (he : datetimeAdd now delta_ahead = some winE) :
    secondsPerDay = 86400 ∧
    (runMain store now g e (prog :: name :: a2 :: a3 :: rest)).ops
      = [.requestAccess, .listCalendars, .queryEvents winS winE [cal]] ∧
    winS = now - db * secondsPerDay ∧
    winE = now + da * secondsPerDay := by
  refine ⟨rfl, ?_, ?_, ?_⟩
  · simp [runMain, h2, h3, hfind, hb, hs, ha, he]
  · rw [datetimeSub_eq now delta_back winS hs, timedeltaDays_eq db delta_back hb]
  · rw [datetimeAdd_eq now delta_ahead winE he, timedeltaDays_eq da delta_ahead ha]

/-- Witness for C4: at clock 0 with days_back 7 and days_ahead 14 the sample
store is queried from -604800 to 1209600. -/
theorem query_window_is_now_minus_back_plus_ahead_witness :
    pyInt "7" = some 7 ∧ pyInt "14" = some 14 ∧
    findTargetCal "Work" sampleStore.calendars = some workCal ∧
    timedeltaDays 7 = some 604800 ∧ datetimeSub 0 604800 = some (-604800) ∧
    timedeltaDays 14 = some 1209600 ∧ datetimeAdd 0 1209600 = some 1209600 ∧
    (secondsPerDay = 86400 ∧
     (runMain sampleStore 0 true none ["fetch-events.py", "Work", "7", "14"]).ops
      = [.requestAccess, .listCalendars, .queryEvents (-604800) 1209600 [workCal]] ∧
     (-604800 : Int) = 0 - 7 * secondsPerDay ∧
     (1209600 : Int) = 0 + 14 * secondsPerDay) :=
  ⟨by decide, by decide, by decide, by decide, by decide, by decide, by decide,
   query_window_is_now_minus_back_plus_ahead sampleStore 0 true none
     "fetch-events.py" "Work" "7" "14" [] 7 14 604800 1209600 (-604800) 1209600 workCal
     (by decide) (by decide) (by decide) (by decide) (by decide) (by decide) (by decide)⟩

/-- Claim C5: with fewer than three positional arguments (argv, program name
included, shorter than four entries) the run prints nothing to stdout, prints
the usage line to stderr, and exits with status 1. -/
theorem too_few_args_usage_to_stderr_exit1 (store : EKEventStore) (now : Int)
    (g : Bool) (e : Option String) (argv : List String) (h : argv.length < 4) :
    (runMain store now g e argv).stdout = [] ∧
    (runMain store now g e argv).stderr = [usageMsg] ∧
    (runMain store now g e argv).outcome = .exited 1 := by
  match argv with
  | [] => exact ⟨rfl, rfl, rfl⟩
  | [_] => exact ⟨rfl, rfl, rfl⟩
  | [_, _] => exact ⟨rfl, rfl, rfl⟩
  | [_, _, _] => exact ⟨rfl, rfl, rfl⟩
  | _ :: _ :: _ :: _ :: _ => simp at h; omega

/-- Witness for C5: two positional arguments only. -/
theorem too_few_args_usage_to_stderr_exit1_witness :
    (["fetch-events.py", "Work", "7"] : List String).length < 4 ∧
    ((runMain sampleStore 0 true none ["fetch-events.py", "Work", "7"]).stdout = [] ∧
     (runMain sampleStore 0 true none ["fetch-events.py", "Work", "7"]).stderr = [usageMsg] ∧
     (runMain sampleStore 0 true none ["fetch-events.py", "Work", "7"]).outcome
      = .exited 1) :=
  ⟨by decide,
   too_few_args_usage_to_stderr_exit1 sampleStore 0 true none
     ["fetch-events.py", "Work", "7"] (by decide)⟩

/-- Claim C6: when the second or third argument does not parse as an integer,
the run ends in an uncaught runtime error, with nothing printed to stdout and
no store operation performed: the failure precedes access request, calendar
listing, lookup and event query, and no structured JSON error is produced. -/
theorem invalid_integer_uncaught_before_store_access (store : EKEventStore)
    (now : Int) (g : Bool) (e : Option String) (prog name a2 a3 : String)
    (rest : List String) (h : pyInt a2 = none ∨ pyInt a3 = none) :
    (runMain store now g e (prog :: name :: a2 :: a3 :: rest)).outcome
      = .uncaught "ValueError" ∧
    (runMain store now g e (prog :: name :: a2 :: a3 :: rest)).stdout = [] ∧
    (runMain store now g e (prog :: name :: a2 :: a3 :: rest)).ops = [] := by
  rcases h with h | h
  · simp [runMain, h]
  · cases h2 : pyInt a2 with
    | none => simp [runMain, h2]
    | some db => simp [runMain, h2, h]

/-- Witness for C6: the second argument abc is not a valid integer. -/
theorem invalid_integer_uncaught_before_store_access_witness :
    (pyInt "abc" = none ∨ pyInt "14" = none) ∧
    ((runMain sampleStore 0 true none ["fetch-events.py", "Work", "abc", "14"]).outcome
      = .uncaught "ValueError" ∧
     (runMain sampleStore 0 true none ["fetch-events.py", "Work", "abc", "14"]).stdout = [] ∧
     (runMain sampleStore 0 true none ["fetch-events.py", "Work", "abc", "14"]).ops = []) :=
  ⟨Or.inl (by decide),
   invalid_integer_uncaught_before_store_access sampleStore 0 true none
     "fetch-events.py" "Work" "abc" "14" [] (Or.inl (by decide))⟩

/-- Claim C8: the authorization completion callback is a no-op, and the whole
run is insensitive to whatever the framework would deliver to it: two runs
differing only in the granted flag and error delivered to the callback
produce identical results. -/
theorem authorization_callback_noop_output_independent :
    (∀ g e, access_callback g e = ()) ∧
    (∀ store now g1 e1 g2 e2 argv,
       runMain store now g1 e1 argv = runMain store now g2 e2 argv) :=
  ⟨fun _ _ => rfl, fun _ _ _ _ _ _ _ => rfl⟩

/-- Counterexample for C10 as frozen: 1000000000 parses as an integer yet is
not accepted — it exceeds the timedelta day-magnitude bound, and the run
raises an uncaught OverflowError with nothing on stdout, so not every
parseable integer goes through without error. -/
theorem huge_day_count_rejected_counterexample :
    pyInt "1000000000" = some 1000000000 ∧ pyInt "0" = some 0 ∧
    findTargetCal "Work" sampleStore.calendars = some workCal ∧
    (runMain sampleStore 0 true none
       ["fetch-events.py", "Work", "0", "1000000000"]).outcome
      = .uncaught "OverflowError" ∧
    (runMain sampleStore 0 true none
       ["fetch-events.py", "Work", "0", "1000000000"]).stdout = [] :=
  ⟨by decide, by decide, by decide, by decide, rfl⟩

/-- Claim C10 as amended: no non-negativity check is performed on days_back
or days_ahead: any parsed integer — negative ones included — is accepted
whenever its timedelta is constructible and the shifted datetimes stay in
the supported range, the run exits 0, and the window is still computed as
start equal to now minus days_back days and end equal to now plus
days_ahead days, so negative inputs can place the window start after its
end without any error; only magnitudes beyond those datetime bounds raise
an uncaught OverflowError. -/
theorem negative_day_counts_accepted_window_unchecked (store : EKEventStore)
    (now : Int) (g : Bool) (e : Option String) (prog name a2 a3 : String)
    (rest : List String) (db da delta_back delta_ahead winS winE : Int)
    (cal : EKCalendar)
    (h2 : pyInt a2 = some db) (h3 : pyInt a3 = some da)
    (hfind : findTargetCal name store.calendars = some cal)
    (hb : timedeltaDays db = some delta_back)
    (hs : datetimeSub now delta_back = some winS)
    (ha : timedeltaDays da = some delta_ahead)
    (he : datetimeAdd now delta_ahead = some winE) :
    (runMain store now g e (prog :: name :: a2 :: a3 :: rest)).outcome = .exited 0 ∧
    (runMain store now g e (prog :: name :: a2 :: a3 :: rest)).stderr = [] ∧
    (runMain store now g e (prog :: name :: a2 :: a3 :: rest)).ops
      = [.requestAccess, .listCalendars, .queryEvents winS winE [cal]] ∧
    winS = now - db * secondsPerDay ∧
    winE = now + da * secondsPerDay := by
  refine ⟨?_, ?_, ?_, ?_, ?_⟩
  · simp [runMain, h2, h3, hfind, hb, hs, ha, he]
  · simp [runMain, h2, h3, hfind, hb, hs, ha, he]
  · simp [runMain, h2, h3, hfind, hb, hs, ha, he]
  · rw [datetimeSub_eq now delta_back winS hs, timedeltaDays_eq db delta_back hb]
  · rw [datetimeAdd_eq now delta_ahead winE he, timedeltaDays_eq da delta_ahead ha]

/-- Witness for C10: days_back -10 parses and is accepted; at clock 0 the
queried window starts at 864000, strictly after its end 0, and the run still
exits 0. -/
theorem negative_day_counts_accepted_window_unchecked_witness :
    pyInt "-10" = some (-10) ∧ pyInt "0" = some 0 ∧
    findTargetCal "Work" sampleStore.calendars = some workCal ∧
    timedeltaDays (-10) = some (-864000) ∧ datetimeSub 0 (-864000) = some 864000 ∧
    timedeltaDays 0 = some 0 ∧ datetimeAdd 0 0 = some 0 ∧
    (864000 : Int) > 0 ∧
    ((runMain sampleStore 0 true none ["fetch-events.py", "Work", "-10", "0"]).outcome
      = .exited 0 ∧
     (runMain sampleStore 0 true none ["fetch-events.py", "Work", "-10", "0"]).stderr = [] ∧
     (runMain sampleStore 0 true none ["fetch-events.py", "Work", "-10", "0"]).ops
      = [.requestAccess, .listCalendars, .queryEvents 864000 0 [workCal]] ∧
     (864000 : Int) = 0 - (-10) * secondsPerDay ∧
     (0 : Int) = 0 + 0 * secondsPerDay) :=
  ⟨by decide, by decide, by decide, by decide, by decide, by decide, by decide, by decide,
   negative_day_counts_accepted_window_unchecked sampleStore 0 true none
     "fetch-events.py" "Work" "-10" "0" [] (-10) 0 (-864000) 0 864000 0 workCal
     (by decide) (by decide) (by decide) (by decide) (by decide) (by decide) (by decide)⟩

/-- Claim C2: on a successful run the emitted value is the JSON array of the
records of the store's events, and every record carries all nine documented
keys, with each absent optional text field (title, location, notes, url)
rendered as the empty string. -/
theorem success_records_have_all_nine_keys (store : EKEventStore) (now : Int)
    (g : Bool) (e : Option String) (prog name a2 a3 : String)
    (rest : List String) (db da delta_back delta_ahead winS winE : Int)
    (cal : EKCalendar)
    (h2 : pyInt a2 = some db) (h3 : pyInt a3 = some da)
    (hfind : findTargetCal name store.calendars = some cal)
    (hb : timedeltaDays db = some delta_back)
    (hs : datetimeSub now delta_back = some winS)
    (ha : timedeltaDays da = some delta_ahead)
    (he : datetimeAdd now delta_ahead = some winE) :
    (runMain store now g e (prog :: name :: a2 :: a3 :: rest)).stdout
      = [.jarr ((store.eventsMatching winS winE [cal]).map (eventToJson cal))] ∧
    (∀ c ev, objKeys (eventToJson c ev) = nineKeys) ∧
    (∀ c ev, ev.title = none → objGet (eventToJson c ev) "title" = some (.jstr "")) ∧
    (∀ c ev, ev.location = none → objGet (eventToJson c ev) "location" = some (.jstr "")) ∧
    (∀ c ev, ev.notes = none → objGet (eventToJson c ev) "notes" = some (.jstr "")) ∧
    (∀ c ev, ev.url = none → objGet (eventToJson c ev) "url" = some (.jstr "")) := by
  refine ⟨by simp [runMain, h2, h3, hfind, hb, hs, ha, he], ?_, ?_, ?_, ?_, ?_⟩
  · intro c ev; simp [eventToJson, objKeys, nineKeys]
  · intro c ev h; simp [eventToJson, objGet, List.lookup, h]
  · intro c ev h; simp [eventToJson, objGet, List.lookup, h]
  · intro c ev h; simp [eventToJson, objGet, List.lookup, h]
  · intro c ev h; simp [eventToJson, objGet, List.lookup, h]

/-- Witness for C2: the sample store query returns an event with a title and
an event with every optional field absent. -/
theorem success_records_have_all_nine_keys_witness :
    pyInt "7" = some 7 ∧ pyInt "14" = some 14 ∧
    findTargetCal "Work" sampleStore.calendars = some workCal ∧
    timedeltaDays 7 = some 604800 ∧ datetimeSub 0 604800 = some (-604800) ∧
    timedeltaDays 14 = some 1209600 ∧ datetimeAdd 0 1209600 = some 1209600 ∧
    ((runMain sampleStore 0 true none ["fetch-events.py", "Work", "7", "14"]).stdout
      = [.jarr ((sampleStore.eventsMatching (-604800) 1209600 [workCal]).map
          (eventToJson workCal))] ∧
     (∀ c ev, objKeys (eventToJson c ev) = nineKeys) ∧
     (∀ c ev, ev.title = none → objGet (eventToJson c ev) "title" = some (.jstr "")) ∧
     (∀ c ev, ev.location = none → objGet (eventToJson c ev) "location" = some (.jstr "")) ∧
     (∀ c ev, ev.notes = none → objGet (eventToJson c ev) "notes" = some (.jstr "")) ∧
     (∀ c ev, ev.url = none → objGet (eventToJson c ev) "url" = some (.jstr ""))) :=
  ⟨by decide, by decide, by decide, by decide, by decide, by decide, by decide,
   success_records_have_all_nine_keys sampleStore 0 true none
     "fetch-events.py" "Work" "7" "14" [] 7 14 604800 1209600 (-604800) 1209600 workCal
     (by decide) (by decide) (by decide) (by decide) (by decide) (by decide) (by decide)⟩

/-- Claim C7: on a successful run every emitted record embeds a calendar
object whose id and title fields are both the matched calendar's display
title, and the record is independent of the store's real unique calendar
identifier, which never reaches the output. -/
theorem record_calendar_id_equals_title (store : EKEventStore) (now : Int)
    (g : Bool) (e : Option String) (prog name a2 a3 : String)
    (rest : List String) (db da delta_back delta_ahead winS winE : Int)
    (cal : EKCalendar)
    (h2 : pyInt a2 = some db) (h3 : pyInt a3 = some da)
    (hfind : findTargetCal name store.calendars = some cal)
    (hb : timedeltaDays db = some delta_back)
    (hs : datetimeSub now delta_back = some winS)
    (ha : timedeltaDays da = some delta_ahead)
    (he : datetimeAdd now delta_ahead = some winE) :
    (runMain store now g e (prog :: name :: a2 :: a3 :: rest)).stdout
      = [.jarr ((store.eventsMatching winS winE [cal]).map (eventToJson cal))] ∧
    (∀ c ev, calField (eventToJson c ev) "id" = some (.jstr c.title) ∧
             calField (eventToJson c ev) "title" = some (.jstr c.title)) ∧
    (∀ c1 c2 ev, c1.title = c2.title → c1.source = c2.source →
       eventToJson c1 ev = eventToJson c2 ev) := by
  refine ⟨by simp [runMain, h2, h3, hfind, hb, hs, ha, he], ?_, ?_⟩
  · intro c ev
    constructor <;> simp [eventToJson, calField, objGet, List.lookup]
  · intro c1 c2 ev ht hs
    simp [eventToJson, ht, hs]

/-- Witness for C7: the matched Work calendar's display title doubles as the
record's calendar id and title. -/
theorem record_calendar_id_equals_title_witness :
    pyInt "7" = some 7 ∧ pyInt "14" = some 14 ∧
    findTargetCal "Work" sampleStore.calendars = some workCal ∧
    timedeltaDays 7 = some 604800 ∧ datetimeSub 0 604800 = some (-604800) ∧
    timedeltaDays 14 = some 1209600 ∧ datetimeAdd 0 1209600 = some 1209600 ∧
    ((runMain sampleStore 0 true none ["fetch-events.py", "Work", "7", "14"]).stdout
      = [.jarr ((sampleStore.eventsMatching (-604800) 1209600 [workCal]).map
          (eventToJson workCal))] ∧
     (∀ c ev, calField (eventToJson c ev) "id" = some (.jstr c.title) ∧
              calField (eventToJson c ev) "title" = some (.jstr c.title)) ∧
     (∀ c1 c2 ev, c1.title = c2.title → c1.source = c2.source →
        eventToJson c1 ev = eventToJson c2 ev)) :=
  ⟨by decide, by decide, by decide, by decide, by decide, by decide, by decide,
   record_calendar_id_equals_title sampleStore 0 true none
     "fetch-events.py" "Work" "7" "14" [] 7 14 604800 1209600 (-604800) 1209600 workCal
     (by decide) (by decide) (by decide) (by decide) (by decide) (by decide) (by decide)⟩

/-- Claim C9: when the matched calendar has no source, every emitted record
renders the calendar source field as the string Unknown, in contrast with
the event-level optional text fields which render as the empty string when
absent. -/
theorem calendar_source_defaults_to_Unknown (store : EKEventStore) (now : Int)
    (g : Bool) (e : Option String) (prog name a2 a3 : String)
    (rest : List String) (db da delta_back delta_ahead winS winE : Int)
    (cal : EKCalendar)
    (h2 : pyInt a2 = some db) (h3 : pyInt a3 = some da)
    (hfind : findTargetCal name store.calendars = some cal)
    (hb : timedeltaDays db = some delta_back)
    (hs : datetimeSub now delta_back = some winS)
    (ha : timedeltaDays da = some delta_ahead)
    (he : datetimeAdd now delta_ahead = some winE)
    (hsrc : cal.source = none) :
    (runMain store now g e (prog :: name :: a2 :: a3 :: rest)).stdout
      = [.jarr ((store.eventsMatching winS winE [cal]).map (eventToJson cal))] ∧
    (∀ ev, calField (eventToJson cal ev) "source" = some (.jstr "Unknown")) ∧
    (∀ c ev, ev.title = none → objGet (eventToJson c ev) "title" = some (.jstr "")) := by
  refine ⟨by simp [runMain, h2, h3, hfind, hb, hs, ha, he], ?_, ?_⟩
  · intro ev
    simp [eventToJson, calField, objGet, List.lookup, hsrc]
  · intro c ev h
    simp [eventToJson, objGet, List.lookup, h]

/-- Witness for C9: the Home calendar has no source; its records say
Unknown for the source while the blank event's title renders as empty. -/
theorem calendar_source_defaults_to_Unknown_witness :
    pyInt "7" = some 7 ∧ pyInt "14" = some 14 ∧
    findTargetCal "Home" sampleStore.calendars = some homeCal ∧
    timedeltaDays 7 = some 604800 ∧ datetimeSub 0 604800 = some (-604800) ∧
    timedeltaDays 14 = some 1209600 ∧ datetimeAdd 0 1209600 = some 1209600 ∧
    homeCal.source = none ∧
    ((runMain sampleStore 0 true none ["fetch-events.py", "Home", "7", "14"]).stdout
      = [.jarr ((sampleStore.eventsMatching (-604800) 1209600 [homeCal]).map
          (eventToJson homeCal))] ∧
     (∀ ev, calField (eventToJson homeCal ev) "source" = some (.jstr "Unknown")) ∧
     (∀ c ev, ev.title = none → objGet (eventToJson c ev) "title" = some (.jstr ""))) :=
  ⟨by decide, by decide, by decide, by decide, by decide, by decide, by decide, by decide,
   calendar_source_defaults_to_Unknown sampleStore 0 true none
     "fetch-events.py" "Home" "7" "14" [] 7 14 604800 1209600 (-604800) 1209600 homeCal
     (by decide) (by decide) (by decide) (by decide) (by decide) (by decide) (by decide)
     (by decide)⟩

end FetchEvents
